import Mathlib

/-!
Shallow embedding of the folder persistence core of the repository
(files src/frontend/rust-lib/flowy-core/src/controller.rs and
src/frontend/rust-lib/flowy-core/src/services/persistence/mod.rs).

External collaborators (the migration engine, the revision disk cache,
the FolderEditor constructor, the database pool, the session identity
provider and the sub-controllers) are modelled by an environment
oracle `Env` that fixes, for one run, the outcome of every fallible
external call.  Each embedded operation is written in explicit
state-passing style and additionally returns the list of observable
events it performed, in order, so that sequencing and frame claims can
be stated about the trace.
-/

/-- Entity: a View, child of an App (identity only; payload shapes are
out of scope per the design). -/
structure View where
  id : String
deriving DecidableEq, Repr

/-- Entity: an App, child of a Workspace, owning Views (its belongings). -/
structure App where
  id : String
  belongings : List View
deriving DecidableEq, Repr

/-- Entity: a Workspace owning Apps. -/
structure Workspace where
  id : String
  apps : List App
deriving DecidableEq, Repr

/-- Entity: a Trash item (identity only). -/
structure Trash where
  id : String
deriving DecidableEq, Repr

/-- Modelled from the spec: `FolderPad` lives in the flowy-collaboration
crate, which is not under src/.  Per the data model it is the folder
tree: a list of Workspaces plus a parallel Trash collection. -/
structure FolderPad where
  workspaces : List Workspace
  trash : List Trash
deriving DecidableEq, Repr

def strBytes (s : String) : List Nat := s.data.map Char.toNat

def View.ser (v : View) : List Nat := strBytes v.id ++ [0]

def App.ser (a : App) : List Nat :=
  strBytes a.id ++ [1] ++ (a.belongings.map View.ser).flatten ++ [2]

def Workspace.ser (w : Workspace) : List Nat :=
  strBytes w.id ++ [3] ++ (w.apps.map App.ser).flatten ++ [4]

def Trash.ser (t : Trash) : List Nat := strBytes t.id ++ [5]

/-- Modelled from the spec: `folder.delta().to_bytes()` — the serialized
folder delta (the payload bytes of a revision).  The concrete binary
layout is defined by the excluded collaborators; any injective-enough
serialization serves the claims here. -/
def FolderPad.deltaBytes (f : FolderPad) : List Nat :=
  (f.workspaces.map Workspace.ser).flatten ++ [6] ++ (f.trash.map Trash.ser).flatten

/-- A deterministic digest of a byte sequence (stands for md5, whose
concrete algorithm is irrelevant to the claims: only determinism and
that it is computed from the serialized content matter). -/
def digest (bs : List Nat) : Nat :=
  bs.foldl (fun h b => (h * 131 + b) % 4294967296) 5381

/-- Modelled from the spec: `folder.md5()` — the deterministic digest of
the folder content (its serialized delta). -/
def FolderPad.md5 (f : FolderPad) : Nat := digest f.deltaBytes

/-- Revision, as constructed by `Revision::new(FOLDER_ID, 0, 0,
delta_data, user_id, md5)` in save_folder (mod.rs line 133). -/
structure Revision where
  object_id : String
  base_rev_id : Nat
  rev_id : Nat
  delta : List Nat
  user_id : String
  md5 : Nat
deriving DecidableEq, Repr

/-- Durability / sync flag of a revision record. -/
inductive RevisionState where
  | Sync
  | Ack
deriving DecidableEq, Repr

/-- RevisionRecord as built in save_folder (mod.rs lines 134-138). -/
structure RevisionRecord where
  revision : Revision
  state : RevisionState
  write_to_disk : Bool
deriving DecidableEq, Repr

/-- `pub const FOLDER_ID: &str = "flowy_folder";` (mod.rs line 27). -/
def FOLDER_ID : String := "flowy_folder"

/-- Observable events performed by the embedded operations, in program
order.  Each constructor corresponds to one external call in the source. -/
inductive Event where
  | runMigration (user_id : String)
  | saveFolder (user_id : String) (record : RevisionRecord)
  | constructEditor (id : Nat)
  | logError
  | seedApp
  | seedView
  | setCurrentWorkspace (workspace_id : String)
  | setLatestView (view_id : String)
  | createViewContent (view_id : String) (readme : Bool)
  | notifyWorkspaceCreated (token : String) (workspaces : List Workspace)
deriving DecidableEq, Repr

deriving instance DecidableEq for Except

/-- Environment oracle: the outcome of every fallible external call,
fixed for one run.  Errors are represented by strings naming the call. -/
structure Env where
  /-- result of FolderMigration::run_v1_migration (mod.rs line 110) -/
  migrationResult : Except String (Option FolderPad)
  /-- result of self.user.user_id() (mod.rs line 120) -/
  userIdResult : Except String String
  /-- result of self.user.token() (mod.rs line 121, controller.rs line 51) -/
  tokenResult : Except String String
  /-- self.database.db_pool() succeeds (mod.rs lines 122, 130) -/
  dbPoolOk : Bool
  /-- pool.get() succeeds (mod.rs line 140) -/
  poolGetOk : Bool
  /-- FolderEditor::new succeeds (mod.rs line 123) -/
  editorNewOk : Bool
  /-- disk_cache.write_revision_records succeeds (mod.rs line 142) -/
  writeRecordsOk : Bool
  /-- app_controller.initialize() succeeds (controller.rs line 113) -/
  appInitOk : Bool
  /-- view_controller.initialize() succeeds (controller.rs line 114) -/
  viewInitOk : Bool
  /-- FolderPad::new succeeds (controller.rs line 152) -/
  padNewOk : Bool
  /-- view_controller.create_view_document_content succeeds
  (controller.rs lines 147-149) -/
  createViewContentOk : Bool
deriving DecidableEq, Repr

/-- State owned by FolderPersistence: the optional FolderEditor behind
the RwLock (mod.rs line 55).  Editor instances are identified by the
order of their construction; `nextId` numbers the next construction. -/
structure PState where
  folder_editor : Option Nat
  nextId : Nat
deriving DecidableEq, Repr

namespace FolderPersistence

/-- The record save_folder builds for a folder (mod.rs lines 131-138). -/
def mkBootstrapRecord (user_id : String) (folder : FolderPad) : RevisionRecord :=
  { revision :=
      { object_id := FOLDER_ID
        base_rev_id := 0
        rev_id := 0
        delta := folder.deltaBytes
        user_id := user_id
        md5 := folder.md5 }
    state := RevisionState.Sync
    write_to_disk := true }

/-- `FolderPersistence::save_folder` (mod.rs lines 129-143): get the
pool, build the bootstrap revision record, and write it through the
revision disk cache.  The saveFolder event records the call to
write_revision_records with the record it was given. -/
def save_folder (env : Env) (user_id : String) (folder : FolderPad) :
    Except String Unit × List Event :=
  if env.dbPoolOk then
    let record := mkBootstrapRecord user_id folder
    if env.poolGetOk then
      if env.writeRecordsOk then
        (Except.ok (), [Event.saveFolder user_id record])
      else
        (Except.error "write_revision_records", [Event.saveFolder user_id record])
    else
      (Except.error "pool_get", [])
  else
    (Except.error "db_pool", [])

/-- `FolderPersistence::init_folder_editor` (mod.rs lines 119-127):
fetch user_id, token and pool, construct a FolderEditor, publish it in
the slot, and return it. -/
def init_folder_editor (env : Env) (s : PState) :
    Except String Nat × PState × List Event :=
  match env.userIdResult with
  | Except.error e => (Except.error e, s, [])
  | Except.ok _ =>
    match env.tokenResult with
    | Except.error e => (Except.error e, s, [])
    | Except.ok _ =>
      if env.dbPoolOk then
        if env.editorNewOk then
          let id := s.nextId
          (Except.ok id, { folder_editor := some id, nextId := s.nextId + 1 },
            [Event.constructEditor id])
        else
          (Except.error "folder_editor_new", s, [])
      else
        (Except.error "db_pool", s, [])

/-- `FolderPersistence::initialize` (mod.rs lines 108-117): run the v1
migration; when it yields a folder, save it; then force-create the
folder editor.  (Named initializeFolder because Lean reserves the
source name.) -/
def initializeFolder (env : Env) (s : PState) (user_id : String) :
    Except String Unit × PState × List Event :=
  match env.migrationResult with
  | Except.error e => (Except.error e, s, [Event.runMigration user_id])
  | Except.ok none =>
    let r := init_folder_editor env s
    (r.1.map fun _ => (), r.2.1, Event.runMigration user_id :: r.2.2)
  | Except.ok (some folder) =>
    let w := save_folder env user_id folder
    match w.1 with
    | Except.error e => (Except.error e, s, Event.runMigration user_id :: w.2)
    | Except.ok _ =>
      let r := init_folder_editor env s
      (r.1.map fun _ => (), r.2.1, Event.runMigration user_id :: (w.2 ++ r.2.2))

/-- `FolderPersistence::begin_transaction` (mod.rs lines 92-104) as a
pure data-flow function: clone the slot under the read lock; when an
editor is present, run the closure with it; otherwise log an error,
block on init_folder_editor, and run the closure with the fresh editor
(a construction failure propagates).  This ignores the lifetime of the
read guard taken for the match scrutinee; the lock-level model further
below accounts for it. -/
def begin_transaction {O : Type} (env : Env) (s : PState)
    (f : Nat → Except String O) :
    Except String O × PState × List Event :=
  match s.folder_editor with
  | some editor => (f editor, s, [])
  | none =>
    let r := init_folder_editor env s
    match r.1 with
    | Except.error e => (Except.error e, r.2.1, Event.logError :: r.2.2)
    | Except.ok editor => (f editor, r.2.1, Event.logError :: r.2.2)

/-- `FolderPersistence::user_did_logout` (mod.rs line 106): clear the
editor slot. -/
def user_did_logout (s : PState) : PState := { s with folder_editor := none }

end FolderPersistence

/-- The process-wide INIT_FOLDER_FLAG map (controller.rs lines 28-30),
modelled as an association list; insert replaces any previous binding
for the key, as HashMap::insert does. -/
def mapInsert (m : List (String × Bool)) (k : String) (v : Bool) :
    List (String × Bool) :=
  (k, v) :: m.filter (fun p => p.1 ≠ k)

/-- HashMap::get on the association list. -/
def mapGet (m : List (String × Bool)) (k : String) : Option Bool :=
  (m.find? (fun p => p.1 = k)).map Prod.snd

/-- State visible to the FolderManager: the INIT_FOLDER_FLAG map plus
the FolderPersistence state it owns. -/
structure MState where
  initFlag : List (String × Bool)
  pstate : PState
deriving DecidableEq, Repr

namespace DefaultFolderBuilder

/-- Modelled from the spec: `user_default::create_default_workspace`
lives in the flowy-core-data-model crate, not under src/.  Per the spec
it is one Workspace containing a fixed default App/View set. -/
def create_default_workspace : Workspace :=
  { id := "default_workspace"
    apps := [{ id := "default_app", belongings := [{ id := "default_view" }] }] }

/-- The per-view loop body of DefaultFolderBuilder::build (controller.rs
lines 140-150): for each view (readme content at index 0, initial delta
otherwise) set the latest view and create its document content. -/
def buildViews (env : Env) : Nat → List View → Except String Unit × List Event
  | _, [] => (Except.ok (), [])
  | index, v :: rest =>
    let evs0 := [Event.setLatestView v.id, Event.createViewContent v.id (index == 0)]
    if env.createViewContentOk then
      let r := buildViews env (index + 1) rest
      (r.1, evs0 ++ r.2)
    else
      (Except.error "create_view_document_content", evs0)

/-- The per-app loop of DefaultFolderBuilder::build (controller.rs
lines 139-151). -/
def buildApps (env : Env) : List App → Except String Unit × List Event
  | [] => (Except.ok (), [])
  | a :: rest =>
    let r := buildViews env 0 a.belongings
    match r.1 with
    | Except.error e => (Except.error e, r.2)
    | Except.ok _ =>
      let r2 := buildApps env rest
      (r2.1, r.2 ++ r2.2)

/-- `DefaultFolderBuilder::build` (controller.rs lines 129-159): create
the default workspace, set it current, seed each view document, wrap
the workspace in a FolderPad with empty trash, save it through the
persistence facade, and send the UserCreateWorkspace notification. -/
def build (env : Env) (s : PState) (token user_id : String) :
    Except String Unit × PState × List Event :=
  let workspace := create_default_workspace
  let evs0 := [Event.setCurrentWorkspace workspace.id]
  let r := buildApps env workspace.apps
  match r.1 with
  | Except.error e => (Except.error e, s, evs0 ++ r.2)
  | Except.ok _ =>
    if env.padNewOk then
      let folder : FolderPad := { workspaces := [workspace], trash := [] }
      let w := FolderPersistence.save_folder env user_id folder
      match w.1 with
      | Except.error e => (Except.error e, s, evs0 ++ r.2 ++ w.2)
      | Except.ok _ =>
        (Except.ok (), s,
          evs0 ++ r.2 ++ w.2 ++ [Event.notifyWorkspaceCreated token [workspace]])
    else
      (Except.error "folder_pad_new", s, evs0 ++ r.2)

end DefaultFolderBuilder

namespace FolderManager

/-- `FolderManager::new` (controller.rs lines 44-93): when the session
provides a token, insert (token, false) into INIT_FOLDER_FLAG; the
sub-controller constructions have no modelled effect. -/
def new (env : Env) (s : MState) : MState × List Event :=
  match env.tokenResult with
  | Except.ok token => ({ s with initFlag := mapInsert s.initFlag token false }, [])
  | Except.error _ => (s, [])

/-- `FolderManager::initialize` (controller.rs lines 106-117): when the
flag map records true for user_id, return Ok at once; otherwise run the
persistence initialization, seed the app controller, seed the view
controller, and finally insert (user_id, true).  (Named initializeUser
because Lean reserves the source name.) -/
def initializeUser (env : Env) (s : MState) (user_id : String) :
    Except String Unit × MState × List Event :=
  match mapGet s.initFlag user_id with
  | some true => (Except.ok (), s, [])
  | _ =>
    let p := FolderPersistence.initializeFolder env s.pstate user_id
    match p.1 with
    | Except.error e => (Except.error e, { s with pstate := p.2.1 }, p.2.2)
    | Except.ok _ =>
      if env.appInitOk then
        if env.viewInitOk then
          (Except.ok (),
            { initFlag := mapInsert s.initFlag user_id true, pstate := p.2.1 },
            p.2.2 ++ [Event.seedApp, Event.seedView])
        else
          (Except.error "view_controller_init", { s with pstate := p.2.1 },
            p.2.2 ++ [Event.seedApp, Event.seedView])
      else
        (Except.error "app_controller_init", { s with pstate := p.2.1 },
          p.2.2 ++ [Event.seedApp])

/-- `FolderManager::initialize_with_new_user` (controller.rs lines
119-122): run DefaultFolderBuilder::build, then the normal initialize
path. -/
def initialize_with_new_user (env : Env) (s : MState) (user_id token : String) :
    Except String Unit × MState × List Event :=
  let b := DefaultFolderBuilder.build env s.pstate token user_id
  match b.1 with
  | Except.error e => (Except.error e, { s with pstate := b.2.1 }, b.2.2)
  | Except.ok _ =>
    let r := initializeUser env { s with pstate := b.2.1 } user_id
    (r.1, r.2.1, b.2.2 ++ r.2.2)

/-- `FolderManager::clear` (controller.rs line 124): delegate to
FolderPersistence::user_did_logout. -/
def clear (s : MState) : MState × List Event :=
  ({ s with pstate := FolderPersistence.user_did_logout s.pstate }, [])

end FolderManager

/-! Shared helper lemmas and concrete fixtures. -/

/-- Environment in which every external call succeeds and the migration
finds no legacy data. -/
def envOk : Env :=
  { migrationResult := Except.ok none
    userIdResult := Except.ok "u1"
    tokenResult := Except.ok "t1"
    dbPoolOk := true
    poolGetOk := true
    editorNewOk := true
    writeRecordsOk := true
    appInitOk := true
    viewInitOk := true
    padNewOk := true
    createViewContentOk := true }

/-- Environment in which the migration yields a legacy folder and
everything else succeeds. -/
def envMig : Env :=
  { envOk with migrationResult := Except.ok (some { workspaces := [], trash := [] }) }

/-- Environment in which seeding the view controller fails. -/
def envViewFail : Env := { envOk with viewInitOk := false }

def padEmpty : FolderPad := { workspaces := [], trash := [] }

def pState0 : PState := { folder_editor := none, nextId := 0 }

def mState0 : MState := { initFlag := [], pstate := pState0 }

/-- Looking up the key just inserted yields the inserted value. -/
theorem mapGet_mapInsert_self (m : List (String × Bool)) (k : String) (v : Bool) :
    mapGet (mapInsert m k v) k = some v := by
  simp [mapGet, mapInsert, List.find?]

/-- The trace of FolderPersistence::initialize always starts with the
migration run. -/
theorem initFolder_trace_head (env : Env) (s : PState) (user_id : String) :
    ∃ rest, (FolderPersistence.initializeFolder env s user_id).2.2
      = Event.runMigration user_id :: rest := by
  unfold FolderPersistence.initializeFolder
  rcases env.migrationResult with e | f
  · exact ⟨[], rfl⟩
  · rcases f with _ | folder
    · exact ⟨_, rfl⟩
    · rcases h : (FolderPersistence.save_folder env user_id folder).1 with e | u
      · simp only [h]
        exact ⟨_, rfl⟩
      · simp only [h]
        exact ⟨_, rfl⟩

/-- A successful init_folder_editor publishes the returned editor in
the slot and records its construction. -/
theorem initEditor_ok (env : Env) (s : PState) (ed : Nat)
    (h : (FolderPersistence.init_folder_editor env s).1 = Except.ok ed) :
    (FolderPersistence.init_folder_editor env s).2.1.folder_editor = some ed ∧
    (FolderPersistence.init_folder_editor env s).2.2 = [Event.constructEditor ed] := by
  unfold FolderPersistence.init_folder_editor at h ⊢
  cases hu : env.userIdResult with
  | error e => simp [hu] at h
  | ok u =>
    cases ht : env.tokenResult with
    | error e => simp [hu, ht] at h
    | ok t =>
      by_cases hdb : env.dbPoolOk
      · by_cases hen : env.editorNewOk
        · simp [hu, ht, hdb, hen] at h ⊢
          simp [h]
        · simp [hu, ht, hdb, hen] at h
      · simp [hu, ht, hdb] at h

/-- Claim C2: every Revision Record that save_folder hands to the
revision disk cache is the bootstrap record: base and target sequence
both 0, object id the fixed folder id, payload the serialized folder
delta, author the calling user, and checksum the deterministic digest
of that folder's content. -/
theorem c2_save_folder_bootstrap (env : Env) (user_id uid2 : String)
    (folder : FolderPad) (rec : RevisionRecord)
    (h : Event.saveFolder uid2 rec ∈ (FolderPersistence.save_folder env user_id folder).2) :
    uid2 = user_id ∧
    rec.revision.object_id = FOLDER_ID ∧
    rec.revision.base_rev_id = 0 ∧
    rec.revision.rev_id = 0 ∧
    rec.revision.delta = folder.deltaBytes ∧
    rec.revision.user_id = user_id ∧
    rec.revision.md5 = digest folder.deltaBytes := by
  unfold FolderPersistence.save_folder at h
  by_cases hdb : env.dbPoolOk
  · by_cases hpg : env.poolGetOk
    · by_cases hw : env.writeRecordsOk
      · simp [hdb, hpg, hw] at h
        obtain ⟨h1, h2⟩ := h
        subst h1; subst h2
        simp [FolderPersistence.mkBootstrapRecord, FolderPad.md5]
      · simp [hdb, hpg, hw] at h
        obtain ⟨h1, h2⟩ := h
        subst h1; subst h2
        simp [FolderPersistence.mkBootstrapRecord, FolderPad.md5]
    · simp [hdb, hpg] at h
  · simp [hdb] at h

/-- Witness for C2 at a concrete environment and folder. -/
theorem c2_witness :
    (Event.saveFolder "u1" (FolderPersistence.mkBootstrapRecord "u1" padEmpty) ∈
      (FolderPersistence.save_folder envOk "u1" padEmpty).2) ∧
    (FolderPersistence.mkBootstrapRecord "u1" padEmpty).revision.base_rev_id = 0 ∧
    (FolderPersistence.mkBootstrapRecord "u1" padEmpty).revision.rev_id = 0 ∧
    (FolderPersistence.mkBootstrapRecord "u1" padEmpty).revision.object_id = FOLDER_ID ∧
    (FolderPersistence.mkBootstrapRecord "u1" padEmpty).revision.md5
      = digest padEmpty.deltaBytes :=
  ⟨by decide,
   (c2_save_folder_bootstrap envOk "u1" "u1" padEmpty _ (by decide)).2.2.1,
   (c2_save_folder_bootstrap envOk "u1" "u1" padEmpty _ (by decide)).2.2.2.1,
   (c2_save_folder_bootstrap envOk "u1" "u1" padEmpty _ (by decide)).2.1,
   (c2_save_folder_bootstrap envOk "u1" "u1" padEmpty _ (by decide)).2.2.2.2.2.2⟩

/-- Claim C8: FolderManager::clear only clears the editor slot: the
initialization flag map, the construction counter and everything else
are untouched, and no event is performed. -/
theorem c8_clear_frame (s : MState) :
    (FolderManager.clear s).1.pstate.folder_editor = none ∧
    (FolderManager.clear s).1.initFlag = s.initFlag ∧
    (FolderManager.clear s).1.pstate.nextId = s.pstate.nextId ∧
    (FolderManager.clear s).2 = [] := by
  simp [FolderManager.clear, FolderPersistence.user_did_logout]

/-- The two possible outcomes of init_folder_editor: failure leaving
the state untouched with no events, or success constructing, publishing
and reporting editor s.nextId. -/
theorem initEditor_shape (env : Env) (s : PState) :
    (∃ e, FolderPersistence.init_folder_editor env s = (Except.error e, s, [])) ∨
    FolderPersistence.init_folder_editor env s
      = (Except.ok s.nextId,
         { folder_editor := some s.nextId, nextId := s.nextId + 1 },
         [Event.constructEditor s.nextId]) := by
  unfold FolderPersistence.init_folder_editor
  cases env.userIdResult with
  | error e => exact Or.inl ⟨e, rfl⟩
  | ok u =>
    cases env.tokenResult with
    | error e => exact Or.inl ⟨e, rfl⟩
    | ok t =>
      by_cases hdb : env.dbPoolOk
      · by_cases hen : env.editorNewOk
        · right; simp [hdb, hen]
        · exact Or.inl ⟨"folder_editor_new", by simp [hdb, hen]⟩
      · exact Or.inl ⟨"db_pool", by simp [hdb]⟩

/-- The three possible outcomes of save_folder: failure before reaching
the disk cache, failure of the disk-cache write after handing it the
bootstrap record, or success. -/
theorem saveFolder_shape (env : Env) (user_id : String) (folder : FolderPad) :
    (∃ e, FolderPersistence.save_folder env user_id folder = (Except.error e, [])) ∨
    FolderPersistence.save_folder env user_id folder
      = (Except.error "write_revision_records",
         [Event.saveFolder user_id (FolderPersistence.mkBootstrapRecord user_id folder)]) ∨
    FolderPersistence.save_folder env user_id folder
      = (Except.ok (),
         [Event.saveFolder user_id (FolderPersistence.mkBootstrapRecord user_id folder)]) := by
  unfold FolderPersistence.save_folder
  by_cases hdb : env.dbPoolOk
  · by_cases hpg : env.poolGetOk
    · by_cases hw : env.writeRecordsOk
      · right; right; simp [hdb, hpg, hw]
      · right; left; simp [hdb, hpg, hw]
    · exact Or.inl ⟨"pool_get", by simp [hdb, hpg]⟩
  · exact Or.inl ⟨"db_pool", by simp [hdb]⟩

/-- Unfolding equation: initialize when the migration errors. -/
theorem initFolder_mig_error (env : Env) (s : PState) (uid e : String)
    (hm : env.migrationResult = Except.error e) :
    FolderPersistence.initializeFolder env s uid
      = (Except.error e, s, [Event.runMigration uid]) := by
  unfold FolderPersistence.initializeFolder
  rw [hm]

/-- Unfolding equation: initialize when the migration yields nothing. -/
theorem initFolder_mig_none (env : Env) (s : PState) (uid : String)
    (hm : env.migrationResult = Except.ok none) :
    FolderPersistence.initializeFolder env s uid
      = ((FolderPersistence.init_folder_editor env s).1.map fun _ => (),
         (FolderPersistence.init_folder_editor env s).2.1,
         Event.runMigration uid :: (FolderPersistence.init_folder_editor env s).2.2) := by
  unfold FolderPersistence.initializeFolder
  rw [hm]

/-- Unfolding equation: initialize when the migration yields a folder. -/
theorem initFolder_mig_some (env : Env) (s : PState) (uid : String) (folder : FolderPad)
    (hm : env.migrationResult = Except.ok (some folder)) :
    FolderPersistence.initializeFolder env s uid
      = (match (FolderPersistence.save_folder env uid folder).1 with
         | Except.error e => (Except.error e, s,
             Event.runMigration uid :: (FolderPersistence.save_folder env uid folder).2)
         | Except.ok _ =>
           ((FolderPersistence.init_folder_editor env s).1.map fun _ => (),
            (FolderPersistence.init_folder_editor env s).2.1,
            Event.runMigration uid ::
              ((FolderPersistence.save_folder env uid folder).2 ++
               (FolderPersistence.init_folder_editor env s).2.2))) := by
  unfold FolderPersistence.initializeFolder
  rw [hm]

/-- Claim C1: FolderPersistence::initialize first runs the migration
engine; a folder is persisted through save_folder exactly when the
migration yields one, and what is persisted is that folder's bootstrap
record; and in every successful run the folder editor is constructed,
after the migration run and after any save. -/
theorem c1_initialize_sequencing (env : Env) (s : PState) (user_id : String) :
    (∃ rest, (FolderPersistence.initializeFolder env s user_id).2.2
        = Event.runMigration user_id :: rest) ∧
    (∀ uid2 rec,
      Event.saveFolder uid2 rec ∈ (FolderPersistence.initializeFolder env s user_id).2.2 →
      ∃ folder, env.migrationResult = Except.ok (some folder) ∧ uid2 = user_id ∧
        rec = FolderPersistence.mkBootstrapRecord user_id folder) ∧
    ((FolderPersistence.initializeFolder env s user_id).1 = Except.ok () →
      ∃ id,
        (env.migrationResult = Except.ok none ∧
          (FolderPersistence.initializeFolder env s user_id).2.2
            = [Event.runMigration user_id, Event.constructEditor id]) ∨
        (∃ folder, env.migrationResult = Except.ok (some folder) ∧
          (FolderPersistence.initializeFolder env s user_id).2.2
            = [Event.runMigration user_id,
               Event.saveFolder user_id (FolderPersistence.mkBootstrapRecord user_id folder),
               Event.constructEditor id])) := by
  cases hm : env.migrationResult with
  | error e =>
    rw [initFolder_mig_error env s user_id e hm]
    refine ⟨⟨[], rfl⟩, ?_, ?_⟩
    · intro uid2 rec hmem
      simp at hmem
    · intro hok
      simp at hok
  | ok o =>
    cases o with
    | none =>
      rw [initFolder_mig_none env s user_id hm]
      rcases initEditor_shape env s with ⟨e, hr⟩ | hr <;> rw [hr]
      · refine ⟨⟨[], rfl⟩, ?_, ?_⟩
        · intro uid2 rec hmem
          simp at hmem
        · intro hok
          simp [Except.map] at hok
      · refine ⟨⟨_, rfl⟩, ?_, ?_⟩
        · intro uid2 rec hmem
          simp at hmem
        · intro _
          exact ⟨s.nextId, Or.inl ⟨rfl, rfl⟩⟩
    | some folder =>
      rw [initFolder_mig_some env s user_id folder hm]
      rcases saveFolder_shape env user_id folder with ⟨e, hw⟩ | hw | hw <;> rw [hw]
      · refine ⟨⟨[], rfl⟩, ?_, ?_⟩
        · intro uid2 rec hmem
          simp at hmem
        · intro hok
          simp at hok
      · refine ⟨⟨_, rfl⟩, ?_, ?_⟩
        · intro uid2 rec hmem
          simp at hmem
          exact ⟨folder, rfl, hmem.1, hmem.2⟩
        · intro hok
          simp at hok
      · rcases initEditor_shape env s with ⟨e, hr⟩ | hr <;> rw [hr]
        · refine ⟨⟨_, rfl⟩, ?_, ?_⟩
          · intro uid2 rec hmem
            simp at hmem
            exact ⟨folder, rfl, hmem.1, hmem.2⟩
          · intro hok
            simp [Except.map] at hok
        · refine ⟨⟨_, rfl⟩, ?_, ?_⟩
          · intro uid2 rec hmem
            simp at hmem
            exact ⟨folder, rfl, hmem.1, hmem.2⟩
          · intro _
            exact ⟨s.nextId, Or.inr ⟨folder, rfl, rfl⟩⟩

/-- Witness for C1: with legacy data present and every call succeeding,
the run is successful and its trace is migration, then the bootstrap
save, then the editor construction. -/
theorem c1_witness :
    (FolderPersistence.initializeFolder envMig pState0 "u1").1 = Except.ok () ∧
    (∃ id,
      (envMig.migrationResult = Except.ok none ∧
        (FolderPersistence.initializeFolder envMig pState0 "u1").2.2
          = [Event.runMigration "u1", Event.constructEditor id]) ∨
      (∃ folder, envMig.migrationResult = Except.ok (some folder) ∧
        (FolderPersistence.initializeFolder envMig pState0 "u1").2.2
          = [Event.runMigration "u1",
             Event.saveFolder "u1" (FolderPersistence.mkBootstrapRecord "u1" folder),
             Event.constructEditor id])) :=
  ⟨by decide, (c1_initialize_sequencing envMig pState0 "u1").2.2 (by decide)⟩

/-- Unfolding equation: FolderManager::initialize when the gate does
not record done (the wildcard arm of the source match). -/
theorem initUser_not_done (env : Env) (s : MState) (uid : String)
    (hg : mapGet s.initFlag uid ≠ some true) :
    FolderManager.initializeUser env s uid
      = (match (FolderPersistence.initializeFolder env s.pstate uid).1 with
         | Except.error e =>
           (Except.error e,
            { s with pstate := (FolderPersistence.initializeFolder env s.pstate uid).2.1 },
            (FolderPersistence.initializeFolder env s.pstate uid).2.2)
         | Except.ok _ =>
           if env.appInitOk then
             if env.viewInitOk then
               (Except.ok (),
                { initFlag := mapInsert s.initFlag uid true,
                  pstate := (FolderPersistence.initializeFolder env s.pstate uid).2.1 },
                (FolderPersistence.initializeFolder env s.pstate uid).2.2
                  ++ [Event.seedApp, Event.seedView])
             else
               (Except.error "view_controller_init",
                { s with pstate := (FolderPersistence.initializeFolder env s.pstate uid).2.1 },
                (FolderPersistence.initializeFolder env s.pstate uid).2.2
                  ++ [Event.seedApp, Event.seedView])
           else
             (Except.error "app_controller_init",
              { s with pstate := (FolderPersistence.initializeFolder env s.pstate uid).2.1 },
              (FolderPersistence.initializeFolder env s.pstate uid).2.2
                ++ [Event.seedApp])) := by
  unfold FolderManager.initializeUser
  cases hg2 : mapGet s.initFlag uid with
  | none => rfl
  | some b =>
    cases b with
    | false => rfl
    | true => exact absurd hg2 hg

/-- Whenever the gate does not record done, the performed trace starts
with the migration run. -/
theorem initUser_not_done_trace (env : Env) (s : MState) (uid : String)
    (hg : mapGet s.initFlag uid ≠ some true) :
    ∃ rest, (FolderManager.initializeUser env s uid).2.2
      = Event.runMigration uid :: rest := by
  rw [initUser_not_done env s uid hg]
  obtain ⟨rest, hrest⟩ := initFolder_trace_head env s.pstate uid
  cases hp : (FolderPersistence.initializeFolder env s.pstate uid).1 with
  | error e => exact ⟨rest, hrest⟩
  | ok u =>
    by_cases ha : env.appInitOk
    · by_cases hv : env.viewInitOk
      · exact ⟨rest ++ [Event.seedApp, Event.seedView], by simp [ha, hv, hrest]⟩
      · exact ⟨rest ++ [Event.seedApp, Event.seedView], by simp [ha, hv, hrest]⟩
    · exact ⟨rest ++ [Event.seedApp], by simp [ha, hrest]⟩

/-- Claim C4: when the gate records done for the user, initialize
returns success with the state unchanged and performs nothing: no
migration, no persistence initialization, no seeding. -/
theorem c4_initialized_no_op (env : Env) (s : MState) (user_id : String)
    (h : mapGet s.initFlag user_id = some true) :
    FolderManager.initializeUser env s user_id = (Except.ok (), s, []) := by
  unfold FolderManager.initializeUser
  rw [h]

def mStateDone : MState := { initFlag := [("u1", true)], pstate := pState0 }

/-- Witness for C4 at a concrete state whose gate records done. -/
theorem c4_witness :
    mapGet mStateDone.initFlag "u1" = some true ∧
    FolderManager.initializeUser envOk mStateDone "u1"
      = (Except.ok (), mStateDone, []) :=
  ⟨by decide, c4_initialized_no_op envOk mStateDone "u1" (by decide)⟩

/-- Claim C10: a user with no entry at all in the gate map is treated
as not initialized: the full sequence runs (the trace starts with the
migration engine), and on success the map afterwards records true. -/
theorem c10_missing_entry (env : Env) (s : MState) (user_id : String)
    (h : mapGet s.initFlag user_id = none) :
    (∃ rest, (FolderManager.initializeUser env s user_id).2.2
        = Event.runMigration user_id :: rest) ∧
    ((FolderManager.initializeUser env s user_id).1 = Except.ok () →
      mapGet (FolderManager.initializeUser env s user_id).2.1.initFlag user_id
        = some true) := by
  have hg : mapGet s.initFlag user_id ≠ some true := by simp [h]
  refine ⟨initUser_not_done_trace env s user_id hg, ?_⟩
  rw [initUser_not_done env s user_id hg]
  cases hp : (FolderPersistence.initializeFolder env s.pstate user_id).1 with
  | error e =>
    intro hok
    simp at hok
  | ok u =>
    by_cases ha : env.appInitOk
    · by_cases hv : env.viewInitOk
      · intro _
        simp [ha, hv]
        exact mapGet_mapInsert_self s.initFlag user_id true
      · intro hok
        simp [ha, hv] at hok
    · intro hok
      simp [ha] at hok

/-- Witness for C10: a state with an empty gate map runs the full path
and ends with the gate recording true. -/
theorem c10_witness :
    mapGet mState0.initFlag "u1" = none ∧
    ((FolderManager.initializeUser envOk mState0 "u1").1 = Except.ok () →
      mapGet (FolderManager.initializeUser envOk mState0 "u1").2.1.initFlag "u1"
        = some true) :=
  ⟨by decide, (c10_missing_entry envOk mState0 "u1" (by decide)).2⟩

/-- Claim C5: the gate is flipped to true only after persistence
initialization, app seeding and view seeding all succeeded in that
order (on success the trace is the persistence trace, which starts with
the migration, followed by seedApp then seedView, or empty when the
gate was already done); when any step errors, the error propagates, the
gate map is unchanged and does not record done, so any later call
re-runs the full initialization sequence. -/
theorem c5_gate_flip (env : Env) (s : MState) (user_id : String) :
    (∀ e, (FolderManager.initializeUser env s user_id).1 = Except.error e →
      ((FolderManager.initializeUser env s user_id).2.1.initFlag = s.initFlag ∧
       mapGet (FolderManager.initializeUser env s user_id).2.1.initFlag user_id
         ≠ some true ∧
       ∀ env2, ∃ rest,
         (FolderManager.initializeUser env2
            (FolderManager.initializeUser env s user_id).2.1 user_id).2.2
           = Event.runMigration user_id :: rest)) ∧
    ((FolderManager.initializeUser env s user_id).1 = Except.ok () →
      mapGet (FolderManager.initializeUser env s user_id).2.1.initFlag user_id
        = some true ∧
      ((FolderManager.initializeUser env s user_id).2.2 = [] ∨
       ∃ rest, (FolderManager.initializeUser env s user_id).2.2
         = (Event.runMigration user_id :: rest) ++ [Event.seedApp, Event.seedView])) := by
  by_cases hg : mapGet s.initFlag user_id = some true
  · rw [c4_initialized_no_op env s user_id hg]
    refine ⟨?_, ?_⟩
    · intro e he
      simp at he
    · intro _
      exact ⟨hg, Or.inl rfl⟩
  · rw [initUser_not_done env s user_id hg]
    obtain ⟨rest0, hrest0⟩ := initFolder_trace_head env s.pstate user_id
    cases hp : (FolderPersistence.initializeFolder env s.pstate user_id).1 with
    | error e =>
      refine ⟨?_, ?_⟩
      · intro e2 _
        refine ⟨rfl, by simpa using hg, ?_⟩
        intro env2
        exact initUser_not_done_trace env2 _ user_id (by simpa using hg)
      · intro hok
        simp at hok
    | ok u =>
      by_cases ha : env.appInitOk
      · by_cases hv : env.viewInitOk
        · simp only [ha, hv, if_true]
          refine ⟨?_, ?_⟩
          · intro e2 he2
            simp at he2
          · intro _
            refine ⟨mapGet_mapInsert_self s.initFlag user_id true, Or.inr ?_⟩
            exact ⟨rest0, by rw [hrest0]⟩
        · simp only [ha, hv, if_true, if_false]
          refine ⟨?_, ?_⟩
          · intro e2 _
            refine ⟨rfl, by simpa using hg, ?_⟩
            intro env2
            exact initUser_not_done_trace env2 _ user_id (by simpa using hg)
          · intro hok
            simp at hok
      · simp only [ha, if_false]
        refine ⟨?_, ?_⟩
        · intro e2 _
          refine ⟨rfl, by simpa using hg, ?_⟩
          intro env2
          exact initUser_not_done_trace env2 _ user_id (by simpa using hg)
        · intro hok
          simp at hok

/-- Witness for C5: seeding the view controller fails, the error
propagates and the gate is left not recording done. -/
theorem c5_witness :
    (FolderManager.initializeUser envViewFail mState0 "u1").1
      = Except.error "view_controller_init" ∧
    (FolderManager.initializeUser envViewFail mState0 "u1").2.1.initFlag
      = mState0.initFlag ∧
    mapGet (FolderManager.initializeUser envViewFail mState0 "u1").2.1.initFlag "u1"
      ≠ some true :=
  ⟨by decide,
   ((c5_gate_flip envViewFail mState0 "u1").1 "view_controller_init" (by decide)).1,
   ((c5_gate_flip envViewFail mState0 "u1").1 "view_controller_init" (by decide)).2.1⟩

/-- Claim C3 (code bug): FolderManager::new inserts the gate entry
under the session token, not under the user identifier.  With a session
whose user id is u1 and whose token is t1, construction leaves an entry
(t1, false) and no entry at all for u1 — yet initialize(u1) reads and
flips the key u1, so the entry inserted at construction is never the
one initialize uses unless the two strings coincide. -/
theorem c3_flag_keyed_by_token :
    envOk.userIdResult = Except.ok "u1" ∧
    envOk.tokenResult = Except.ok "t1" ∧
    mapGet (FolderManager.new envOk mState0).1.initFlag "t1" = some false ∧
    mapGet (FolderManager.new envOk mState0).1.initFlag "u1" = none := by
  refine ⟨rfl, rfl, ?_, ?_⟩ <;> decide

def defaultFolderPad : FolderPad :=
  { workspaces := [DefaultFolderBuilder.create_default_workspace], trash := [] }

/-- The event trace of a successful DefaultFolderBuilder::build. -/
def buildSuccessTrace (user_id token : String) : List Event :=
  [Event.setCurrentWorkspace "default_workspace",
   Event.setLatestView "default_view",
   Event.createViewContent "default_view" true,
   Event.saveFolder user_id (FolderPersistence.mkBootstrapRecord user_id defaultFolderPad),
   Event.notifyWorkspaceCreated token [DefaultFolderBuilder.create_default_workspace]]

def isNotify : Event → Bool
  | Event.notifyWorkspaceCreated _ _ => true
  | _ => false

/-- Number of workspace-created notifications in a trace. -/
def countNotify (evs : List Event) : Nat := (evs.filter isNotify).length

theorem countNotify_append (a b : List Event) :
    countNotify (a ++ b) = countNotify a + countNotify b := by
  simp [countNotify, List.filter_append]

theorem countNotify_seeds2 : countNotify [Event.seedApp, Event.seedView] = 0 := rfl

theorem countNotify_seeds1 : countNotify [Event.seedApp] = 0 := rfl

/-- FolderPersistence::initialize emits no workspace-created
notification. -/
theorem countNotify_initFolder (env : Env) (s : PState) (uid : String) :
    countNotify (FolderPersistence.initializeFolder env s uid).2.2 = 0 := by
  cases hm : env.migrationResult with
  | error e =>
    rw [initFolder_mig_error env s uid e hm]
    rfl
  | ok o =>
    cases o with
    | none =>
      rw [initFolder_mig_none env s uid hm]
      rcases initEditor_shape env s with ⟨e, hr⟩ | hr <;> rw [hr] <;> rfl
    | some folder =>
      rw [initFolder_mig_some env s uid folder hm]
      rcases saveFolder_shape env uid folder with ⟨e, hw⟩ | hw | hw <;> rw [hw]
      · rfl
      · rfl
      · rcases initEditor_shape env s with ⟨e, hr⟩ | hr <;> rw [hr] <;> rfl

/-- FolderManager::initialize emits no workspace-created notification. -/
theorem countNotify_initUser (env : Env) (s : MState) (uid : String) :
    countNotify (FolderManager.initializeUser env s uid).2.2 = 0 := by
  by_cases hg : mapGet s.initFlag uid = some true
  · rw [c4_initialized_no_op env s uid hg]
    rfl
  · rw [initUser_not_done env s uid hg]
    cases hp : (FolderPersistence.initializeFolder env s.pstate uid).1 with
    | error e => exact countNotify_initFolder env s.pstate uid
    | ok u =>
      by_cases ha : env.appInitOk
      · by_cases hv : env.viewInitOk
        · simp [ha, hv, countNotify_append, countNotify_seeds2,
                countNotify_initFolder env s.pstate uid]
        · simp [ha, hv, countNotify_append, countNotify_seeds2,
                countNotify_initFolder env s.pstate uid]
      · simp [ha, countNotify_append, countNotify_seeds1,
              countNotify_initFolder env s.pstate uid]

theorem default_workspace_id :
    DefaultFolderBuilder.create_default_workspace.id = "default_workspace" := rfl

/-- The loop of DefaultFolderBuilder::build over the default workspace:
one app with one view, whose first (readme) document is created. -/
theorem buildApps_default (env : Env) :
    DefaultFolderBuilder.buildApps env DefaultFolderBuilder.create_default_workspace.apps
      = (if env.createViewContentOk then Except.ok ()
         else Except.error "create_view_document_content",
         [Event.setLatestView "default_view",
          Event.createViewContent "default_view" true]) := by
  by_cases cv : env.createViewContentOk <;>
    simp [DefaultFolderBuilder.buildApps, DefaultFolderBuilder.buildViews,
          DefaultFolderBuilder.create_default_workspace, cv]

def buildPrefixTrace : List Event :=
  [Event.setCurrentWorkspace "default_workspace",
   Event.setLatestView "default_view",
   Event.createViewContent "default_view" true]

/-- The two outcomes of DefaultFolderBuilder::build: some failure
leaving the persistence state untouched, or success with the full build
trace. -/
theorem build_shape (env : Env) (s : PState) (token uid : String) :
    (∃ e evs, DefaultFolderBuilder.build env s token uid = (Except.error e, s, evs)) ∨
    DefaultFolderBuilder.build env s token uid
      = (Except.ok (), s, buildSuccessTrace uid token) := by
  by_cases cv : env.createViewContentOk
  · by_cases pn : env.padNewOk
    · rcases saveFolder_shape env uid
        { workspaces := [DefaultFolderBuilder.create_default_workspace], trash := [] }
        with ⟨e, hw⟩ | hw | hw
      · refine Or.inl ⟨e, buildPrefixTrace, ?_⟩
        simp [DefaultFolderBuilder.build, buildApps_default, default_workspace_id,
              cv, pn, hw, buildPrefixTrace]
      · refine Or.inl ⟨"write_revision_records",
          buildPrefixTrace ++ [Event.saveFolder uid (FolderPersistence.mkBootstrapRecord uid
            { workspaces := [DefaultFolderBuilder.create_default_workspace], trash := [] })], ?_⟩
        simp [DefaultFolderBuilder.build, buildApps_default, default_workspace_id,
              cv, pn, hw, buildPrefixTrace]
      · refine Or.inr ?_
        simp [DefaultFolderBuilder.build, buildApps_default, default_workspace_id,
              cv, pn, hw, buildSuccessTrace, defaultFolderPad]
    · refine Or.inl ⟨"folder_pad_new", buildPrefixTrace, ?_⟩
      simp [DefaultFolderBuilder.build, buildApps_default, default_workspace_id,
            cv, pn, buildPrefixTrace]
  · refine Or.inl ⟨"create_view_document_content", buildPrefixTrace, ?_⟩
    simp [DefaultFolderBuilder.build, buildApps_default, default_workspace_id,
          cv, buildPrefixTrace]

/-- Claim C6: a successful initialize_with_new_user builds the default
folder — exactly one workspace (the fixed default App/View set) and an
empty trash — persists it as the user's bootstrap revision record
through the persistence facade, emits exactly one workspace-created
notification, and then runs the normal initialize path on the same
manager state, which also succeeds. -/
theorem c6_new_user_bootstrap (env : Env) (s : MState) (user_id token : String)
    (h : (FolderManager.initialize_with_new_user env s user_id token).1 = Except.ok ()) :
    (FolderManager.initialize_with_new_user env s user_id token).2.2
      = buildSuccessTrace user_id token
          ++ (FolderManager.initializeUser env s user_id).2.2 ∧
    (FolderManager.initializeUser env s user_id).1 = Except.ok () ∧
    countNotify (FolderManager.initialize_with_new_user env s user_id token).2.2 = 1 ∧
    defaultFolderPad.workspaces = [DefaultFolderBuilder.create_default_workspace] ∧
    defaultFolderPad.trash = [] ∧
    Event.saveFolder user_id (FolderPersistence.mkBootstrapRecord user_id defaultFolderPad)
      ∈ (FolderManager.initialize_with_new_user env s user_id token).2.2 ∧
    (FolderPersistence.mkBootstrapRecord user_id defaultFolderPad).revision.base_rev_id = 0 ∧
    (FolderPersistence.mkBootstrapRecord user_id defaultFolderPad).revision.rev_id = 0 := by
  rcases build_shape env s.pstate token user_id with ⟨e, evs, hb⟩ | hb
  · exfalso
    unfold FolderManager.initialize_with_new_user at h
    rw [hb] at h
    simp at h
  · unfold FolderManager.initialize_with_new_user at h ⊢
    rw [hb] at h ⊢
    refine ⟨rfl, h, ?_, rfl, rfl, ?_, rfl, rfl⟩
    · rw [countNotify_append, countNotify_initUser]
      rfl
    · simp [buildSuccessTrace]

/-- Witness for C6 at a concrete new user with every call succeeding. -/
theorem c6_witness :
    (FolderManager.initialize_with_new_user envOk mState0 "u1" "t1").1 = Except.ok () ∧
    countNotify (FolderManager.initialize_with_new_user envOk mState0 "u1" "t1").2.2 = 1 ∧
    (FolderManager.initializeUser envOk mState0 "u1").1 = Except.ok () :=
  ⟨by decide,
   (c6_new_user_bootstrap envOk mState0 "u1" "t1" (by decide)).2.2.1,
   (c6_new_user_bootstrap envOk mState0 "u1" "t1" (by decide)).2.1⟩


/-!
Lock-level model of begin_transaction (mod.rs lines 92-104) together
with init_folder_editor (mod.rs lines 119-127).  The scrutinee of the
match at line 96 is `self.folder_editor.read().clone()`; in Rust a
temporary created in a match scrutinee lives until the end of the whole
match expression, so the parking_lot read guard is still held while the
None arm runs.  init_folder_editor, called synchronously from that arm,
constructs the editor and then acquires the write lock on the same
RwLock at line 125 to publish it; a parking_lot write acquisition is
enabled only when no read guard is outstanding.  The model below makes
the guard count explicit.  Read acquisition is modelled as always
enabled, which is accurate as long as no writer is queued (parking_lot
fairness would only block further, never less).  Editor construction
itself is assumed to succeed, as in the claims' scenarios; on a
construction failure the arm is exited by error propagation and the
guard is released, which is why only the success path is of interest.
-/

/-- Program counter of one caller inside begin_transaction. -/
inductive LPc where
  /-- about to acquire the read lock and clone the slot (line 96) -/
  | start
  /-- observed an empty slot, read guard held; about to log (line 98) -/
  | logging
  /-- about to run FolderEditor::new, read guard still held (line 123) -/
  | constructing
  /-- editor constructed; acquiring the write lock to publish (line 125) -/
  | publishing
  /-- the closure f runs with an editor (lines 100 and 102) -/
  | running
  /-- the match ended and the read guard was released -/
  | done
deriving DecidableEq, Repr

/-- Single-caller lock-level state: outstanding read guards, the editor
slot, the fresh-editor counter, the caller position, its locally
constructed editor and the editor its closure received. -/
structure LockSt where
  readers : Nat
  slot : Option Nat
  nextId : Nat
  pc : LPc
  localEd : Option Nat
  result : Option Nat
deriving DecidableEq, Repr

/-- One step of the single caller; none when no step is enabled. -/
def lockStep (s : LockSt) : Option LockSt :=
  match s.pc with
  | LPc.start =>
    match s.slot with
    | some e => some { s with readers := s.readers + 1, pc := LPc.running, result := some e }
    | none => some { s with readers := s.readers + 1, pc := LPc.logging }
  | LPc.logging => some { s with pc := LPc.constructing }
  | LPc.constructing =>
    some { s with localEd := some s.nextId, nextId := s.nextId + 1, pc := LPc.publishing }
  | LPc.publishing =>
    if s.readers = 0 then
      some { s with slot := s.localEd, pc := LPc.running, result := s.localEd }
    else
      none
  | LPc.running => some { s with pc := LPc.done, readers := s.readers - 1 }
  | LPc.done => none

/-- A caller entering begin_transaction while the slot is empty. -/
def lockInit : LockSt :=
  { readers := 0, slot := none, nextId := 0, pc := LPc.start
    localEd := none, result := none }

/-- The caller state after n steps from lockInit. -/
def lockRunN : Nat → Option LockSt
  | 0 => some lockInit
  | n + 1 => (lockRunN n).bind lockStep

theorem lockRunN_stuck (n : Nat) : lockRunN (n + 4) = none := by
  induction n with
  | zero => decide
  | succ k ih =>
    show (lockRunN (k + 4)).bind lockStep = none
    rw [ih]
    rfl

/-- The state the fallback caller is stuck in: editor 0 constructed,
the publication pending, the caller's own read guard outstanding, the
closure never invoked. -/
def lockStuck : LockSt :=
  { readers := 1, slot := none, nextId := 1, pc := LPc.publishing
    localEd := some 0, result := none }

/-- The editor the closure received after n steps, when any. -/
def lockResult (n : Nat) : Option Nat := (lockRunN n).bind fun s => s.result

/-- Claim C7 (code bug): in the fallback path the editor is constructed
but its publication needs the write lock while the caller's own
scrutinee read guard is still outstanding, so after three steps the
caller is blocked forever at the publication: no step is ever enabled
again and the closure is never invoked (its received editor is none
after every number of steps). -/
theorem c7_fallback_deadlock :
    lockRunN 3 = some lockStuck ∧
    lockStuck.pc = LPc.publishing ∧
    lockStuck.localEd = some 0 ∧
    lockStuck.readers = 1 ∧
    lockStep lockStuck = none ∧
    (∀ n, lockResult n = none) := by
  refine ⟨by decide, rfl, rfl, rfl, by decide, ?_⟩
  intro n
  match n with
  | 0 => rfl
  | 1 => rfl
  | 2 => rfl
  | 3 => rfl
  | m + 4 =>
    show (lockRunN (m + 4)).bind (fun s => s.result) = none
    rw [lockRunN_stuck m]
    rfl

/-- One caller in the two-caller lock-level model. -/
structure LTaskSt where
  pc : LPc
  localEd : Option Nat
  res : Option Nat
deriving DecidableEq, Repr

/-- Shared lock-level state of two concurrent callers of
begin_transaction: outstanding read guards, the editor slot, the
fresh-editor counter, the number of completed constructions, and the
two callers. -/
structure LConcSt where
  readers : Nat
  slot : Option Nat
  nextId : Nat
  constructions : Nat
  t1 : LTaskSt
  t2 : LTaskSt
deriving DecidableEq, Repr

/-- One step of one caller against the shared state; none when the
caller is blocked (write acquisition with an outstanding read guard) or
finished.  Returns the caller plus the new readers, slot, nextId and
construction count. -/
def ltaskStep (readers : Nat) (slot : Option Nat) (nextId constructions : Nat)
    (t : LTaskSt) : Option (LTaskSt × Nat × Option Nat × Nat × Nat) :=
  match t.pc with
  | LPc.start =>
    match slot with
    | some e =>
      some ({ t with pc := LPc.running, res := some e },
        readers + 1, slot, nextId, constructions)
    | none =>
      some ({ t with pc := LPc.logging }, readers + 1, slot, nextId, constructions)
  | LPc.logging => some ({ t with pc := LPc.constructing }, readers, slot, nextId, constructions)
  | LPc.constructing =>
    some ({ t with pc := LPc.publishing, localEd := some nextId },
      readers, slot, nextId + 1, constructions + 1)
  | LPc.publishing =>
    if readers = 0 then
      some ({ t with pc := LPc.running, res := t.localEd },
        readers, t.localEd, nextId, constructions)
    else
      none
  | LPc.running => some ({ t with pc := LPc.done }, readers - 1, slot, nextId, constructions)
  | LPc.done => none

/-- Scheduler step: true runs caller 1, false runs caller 2; a blocked
or finished caller leaves the state unchanged. -/
def lstep (s : LConcSt) (who : Bool) : LConcSt :=
  if who then
    match ltaskStep s.readers s.slot s.nextId s.constructions s.t1 with
    | none => s
    | some r =>
      { readers := r.2.1, slot := r.2.2.1, nextId := r.2.2.2.1,
        constructions := r.2.2.2.2, t1 := r.1, t2 := s.t2 }
  else
    match ltaskStep s.readers s.slot s.nextId s.constructions s.t2 with
    | none => s
    | some r =>
      { readers := r.2.1, slot := r.2.2.1, nextId := r.2.2.2.1,
        constructions := r.2.2.2.2, t1 := s.t1, t2 := r.1 }

/-- Run a schedule from a state. -/
def lrun (sched : List Bool) (s : LConcSt) : LConcSt := sched.foldl lstep s

/-- Both callers poised to enter begin_transaction on an empty slot. -/
def lconcInit : LConcSt :=
  { readers := 0, slot := none, nextId := 0, constructions := 0
    t1 := { pc := LPc.start, localEd := none, res := none }
    t2 := { pc := LPc.start, localEd := none, res := none } }

/-- The state both callers are stuck in: two editors constructed, both
publications pending behind the two outstanding read guards, neither
closure invoked, the slot still empty. -/
def lconcDead : LConcSt :=
  { readers := 2, slot := none, nextId := 2, constructions := 2
    t1 := { pc := LPc.publishing, localEd := some 0, res := none }
    t2 := { pc := LPc.publishing, localEd := some 1, res := none } }

/-- Claim C9 (code bug): when two concurrent callers enter
begin_transaction on an empty slot, under the step-by-step interleaving
each caller reads the empty slot (keeping its scrutinee read guard) and
constructs its own editor — two constructions, not one — and then both
block forever acquiring the write lock for the publication: the dead
state is unchanged by every further schedule, so neither caller ever
receives an editor, let alone the same one. -/
theorem c9_double_construction_deadlock :
    lrun [true, false, true, false, true, false] lconcInit = lconcDead ∧
    lconcDead.constructions = 2 ∧
    lconcDead.t1.res = none ∧
    lconcDead.t2.res = none ∧
    lconcDead.slot = none ∧
    (∀ sched, lrun sched lconcDead = lconcDead) := by
  refine ⟨by decide, rfl, rfl, rfl, rfl, ?_⟩
  have h1 : lstep lconcDead true = lconcDead := by decide
  have h2 : lstep lconcDead false = lconcDead := by decide
  intro sched
  induction sched with
  | nil => rfl
  | cons w ws ih =>
    show lrun ws (lstep lconcDead w) = lconcDead
    cases w
    · rw [h2]
      exact ih
    · rw [h1]
      exact ih
